import Mathlib

/-!
Verification of the NodeODM HTTP/task-pipeline layer (`src/index.js`).

The JavaScript route handlers are shallowly embedded as pure Lean functions.
External effects (file-system calls, the option validator, zip extraction,
process spawning) are represented by explicit result parameters collected in
environment records: each field holds the outcome the corresponding callback
would observe (`Option String` is `none` for a successful callback and
`some m` for an `Error` whose `message` is `m`).
-/

set_option autoImplicit false

namespace NodeODM

/-- A JavaScript error value handed to a callback: either an `Error` object
carrying a `message`, or a plain string, whose `.message` property is
`undefined`. The distinction matters because `index.js` sometimes passes
plain strings to `async` callbacks (for example `cb('Extract error')`) while
the final callbacks read `err.message`. -/
inductive JsErr where
  | errObj (m : String)
  | str (s : String)
  deriving DecidableEq, Repr

/-- `err.message` as read by `die(err.message)` in the final series callback of
`app.post('/task/new')`: defined for `Error` objects, `undefined` (`none`) for
plain strings. -/
def JsErr.message : JsErr → Option String
  | .errObj m => some m
  | .str _ => none

/-- JavaScript truthiness of an optional string field: `undefined` and the
empty string are falsy. -/
def strTruthy : Option String → Bool
  | none => false
  | some s => !(s == "")

/-- Character class `[0-9a-f]` under the `/i` flag of the `set-uuid` regex. -/
def isHexCI (c : Char) : Bool :=
  ('0' ≤ c && c ≤ '9') || ('a' ≤ c && c ≤ 'f') || ('A' ≤ c && c ≤ 'F')

/-- Consume exactly `n` case-insensitive hex digits. -/
def takeHex : Nat → List Char → Option (List Char)
  | 0, cs => some cs
  | _ + 1, [] => none
  | n + 1, c :: cs => if isHexCI c then takeHex n cs else none

/-- Consume a literal dash. -/
def expectDash : List Char → Option (List Char)
  | '-' :: cs => some cs
  | _ => none

/-- Consume one character from the given class. -/
def expectClass (cls : List Char) : List Char → Option (List Char)
  | c :: cs => if cls.contains c then some cs else none
  | [] => none

/-- The anchored test of the regex at `src/index.js:161`:
`/^[0-9a-f]\x7b8\x7d-[0-9a-f]\x7b4\x7d-[1-5][0-9a-f]\x7b3\x7d-[89ab][0-9a-f]\x7b3\x7d-[0-9a-f]\x7b12\x7d$/i`. -/
def testSetUuidRegex (s : String) : Bool :=
  let rest := do
    let cs ← takeHex 8 s.toList
    let cs ← expectDash cs
    let cs ← takeHex 4 cs
    let cs ← expectDash cs
    let cs ← expectClass ['1', '2', '3', '4', '5'] cs
    let cs ← takeHex 3 cs
    let cs ← expectDash cs
    let cs ← expectClass ['8', '9', 'a', 'b', 'A', 'B'] cs
    let cs ← takeHex 3 cs
    let cs ← expectDash cs
    takeHex 12 cs
  match rest with
  | some [] => true
  | _ => false

/-- The `set-uuid` middleware of `app.post('/task/new')`
(`src/index.js:154-170`). `knownIds` stands for the ids for which
`taskManager.find` returns a task; `freshUuid` is the value `uuidv4()` would
produce. `Except.ok id` means `next()` was called with `req.id = id`;
`Except.error msg` means the middleware answered `res.json(\x7berror: msg\x7d)`
and the chain stopped. -/
def setUuidMiddleware (header : Option String) (knownIds : List String)
    (freshUuid : String) : Except String String :=
  if strTruthy header then
    let userUuid := header.getD ""
    if testSetUuidRegex userUuid && !knownIds.contains userUuid then
      Except.ok userUuid
    else
      Except.error ("Invalid set-uuid: " ++ userUuid)
  else
    Except.ok freshUuid

/-- The request data reaching the main `/task/new` handler: `req.id` (set by
the middleware), the uploaded files (`req.files`, always an array after
multer) and `req.body.zipurl`. -/
structure NewTaskReq where
  id : String
  files : List String
  zipurl : Option String
  deriving DecidableEq, Repr

/-- Result of handling one `*.zip` entry found in the images directory
(`src/index.js:246-276`): the `StreamZip` instance either emits `error`
(an `Error` object), or `zip.extract` reports an error, or extraction
succeeds with an entry count. -/
inductive ZipRes where
  | openError (m : String)
  | extractError
  | extracted (count : Nat)
  deriving DecidableEq, Repr

/-- One entry of `readdir(destImagesPath)`; the `zip` field is only consulted
when `name` matches the regex for zip entry names. -/
structure DirEntry where
  name : String
  zip : ZipRes
  deriving DecidableEq, Repr

/-- Outcomes the external world hands to the `/task/new` handler, one field
per callback site, plus the relevant configuration. -/
structure NewTaskEnv where
  /-- `config.maxImages`; `0` stands for the falsy "no limit" configuration. -/
  maxImages : Nat
  /-- `odmInfo.filterOptions` error message, if validation fails. -/
  filterOptionsErr : Option String
  /-- `fs.stat(destPath)` error code; `none` means the stat succeeded, i.e.
  `data/<uuid>` already exists. -/
  destStatErr : Option String
  /-- zip-url `getDestination`/`download` error message, if any. -/
  downloadErr : Option String
  /-- `fs.mkdir(destPath)` error message, if any. -/
  mkdirDestErr : Option String
  /-- `fs.mkdir(destGpcPath)` error message, if any. -/
  mkdirGpcErr : Option String
  /-- `mv(srcPath, destImagesPath)` error message, if any. -/
  mvErr : Option String
  /-- `fs.readdir(destImagesPath)` error message before zip extraction. -/
  readdirErr : Option String
  /-- Entries of `destImagesPath` scanned for `*.zip` archives. -/
  imagesDirEntries : List DirEntry
  /-- Error of the GCP `*.txt` / lingering `*.zip` relocation step, if any. -/
  gpcStepErr : Option String
  /-- `new Task(...)` constructor error message, if any. -/
  taskCreateErr : Option String
  /-- Whether `tmp/<uuid>` exists and is a directory when `die` runs its
  cleanup stat. -/
  tmpIsDir : Bool
  deriving DecidableEq, Repr

/-- Result of the `async.series` chain in the `/task/new` handler. `errCrash`
records the zip-extract-error path: the iteratee callback is invoked once
with the plain string `'Extract error'` and then invoked a second time after
`zip.close()`, which makes the `async` once-only guard throw. `crash` records
an exception thrown before any error was delivered. -/
inductive SeriesRes where
  | ok
  | err (e : JsErr)
  | errCrash (e : JsErr)
  | crash (m : String)
  deriving DecidableEq, Repr

/-- Test of the entry-name regex for zip archives (`/\.zip$/i`): the name
ends in a dot followed by "zip" in either case. -/
def zipEntryName (s : String) : Bool :=
  match s.toList.reverse with
  | p :: i :: z :: d :: _ =>
    (p == 'p' || p == 'P') && (i == 'i' || i == 'I')
      && (z == 'z' || z == 'Z') && d == '.'
  | _ => false

/-- The image-limit message used both at `src/index.js:189` and
`src/index.js:270`. -/
def overLimitMsg (n limit : Nat) : String :=
  toString n ++ " images uploaded, but this node can only process up to "
    ++ toString limit ++ "."

/-- The `async.eachSeries` loop over the images directory
(`src/index.js:246-276`): the first `*.zip` entry whose archive fails stops
the chain; a successfully extracted archive whose entry count exceeds a
configured `config.maxImages` stops it with a plain-string error. On the
`zip.extract` error path the callback is called twice (see `SeriesRes`). -/
def processEntries (maxImages : Nat) : List DirEntry → SeriesRes
  | [] => .ok
  | e :: rest =>
    if zipEntryName e.name then
      match e.zip with
      | .openError m => .err (.errObj m)
      | .extractError => .errCrash (.str "Extract error")
      | .extracted count =>
        if maxImages != 0 && count > maxImages then
          .err (.str (overLimitMsg count maxImages))
        else
          processEntries maxImages rest
    else
      processEntries maxImages rest

/-- Chain a step whose only failure mode is an `Error`-carrying callback. -/
def stepThen (e : Option String) (k : SeriesRes) : SeriesRes :=
  match e with
  | some m => .err (.errObj m)
  | none => k

/-- Steps of the series after `mv(srcPath, destImagesPath)`: readdir, zip
extraction, GCP relocation, task creation (`src/index.js:241-310`). -/
def seriesAfterMv (env : NewTaskEnv) : SeriesRes :=
  match env.readdirErr with
  | some m => .err (.errObj m)
  | none =>
    match processEntries env.maxImages env.imagesDirEntries with
    | .ok => stepThen env.gpcStepErr (stepThen env.taskCreateErr .ok)
    | r => r

/-- Steps 4-6 of the series: `mkdir destPath`, `mkdir destGpcPath`,
`mv(srcPath, destImagesPath)` (`src/index.js:237-239`). -/
def seriesAfterDownload (env : NewTaskEnv) : SeriesRes :=
  stepThen env.mkdirDestErr (stepThen env.mkdirGpcErr
    (stepThen env.mvErr (seriesAfterMv env)))

/-- Step 3 of the series: download `req.body.zipurl` into the upload
directory when a zip url was supplied (`src/index.js:220-235`). -/
def seriesAfterStat (req : NewTaskReq) (env : NewTaskEnv) : SeriesRes :=
  if strTruthy req.zipurl then
    match env.downloadErr with
    | some m => .err (.errObj m)
    | none => seriesAfterDownload env
  else
    seriesAfterDownload env

/-- The whole `async.series` chain of the `/task/new` handler
(`src/index.js:196-311`). Step 2 (`src/index.js:208-217`) runs only when
files were uploaded: the callback treats an `ENOENT` stat error as success;
any other stat error is reported as a `Directory exists` `Error`; and when
the stat *succeeds* (`err` is `null`) the template literal evaluates
`err.code`, which throws a `TypeError`. -/
def runSeries (req : NewTaskReq) (env : NewTaskEnv) : SeriesRes :=
  match env.filterOptionsErr with
  | some m => .err (.errObj m)
  | none =>
    if req.files.length > 0 then
      match env.destStatErr with
      | none => .crash "TypeError: cannot read property code of null"
      | some code =>
        if code == "ENOENT" then
          seriesAfterStat req env
        else
          .err (.errObj ("Directory exists (should not have happened: "
            ++ code ++ ")"))
    else
      seriesAfterStat req env

/-- A JSON body written with `res.json`: `errorJson none` is
`res.json(\x7berror: undefined\x7d)` (serialized as an empty object),
`errorJson (some m)` carries an error message, `uuidJson id` is the success
body of `/task/new`. -/
inductive Resp where
  | errorJson (msg : Option String)
  | uuidJson (id : String)
  deriving DecidableEq, Repr

/-- Observable outcome of one `/task/new` request: the JSON responses sent in
order, whether `die` invoked `rmdir` on `tmp/<uuid>`, the id handed to
`taskManager.addNew` (if a task was created), and whether an uncaught
exception was thrown. -/
structure Outcome where
  responses : List Resp
  rmdirTmp : Bool
  task : Option String
  crashed : Bool
  deriving DecidableEq, Repr

/-- `die` (`src/index.js:179-186`): sends one error JSON and invokes
`rmdir(tmp/<uuid>)` when the cleanup stat finds a directory there. -/
def die (tmpIsDir : Bool) (msg : Option String) : Outcome :=
  { responses := [.errorJson msg], rmdirTmp := tmpIsDir, task := none,
    crashed := false }

/-- The main `/task/new` handler (`src/index.js:171-316`): the two early
`die` guards, then the `async.series` chain whose first error is passed to
`die(err.message)`; on success `taskManager.addNew` runs and
`res.json(\x7buuid\x7d)` is sent. On the double-callback path `die` has
already completed its response when the second callback throws; on the
`TypeError` path nothing was sent and no cleanup runs. -/
def taskNew (req : NewTaskReq) (env : NewTaskEnv) : Outcome :=
  if req.files.length == 0 && !strTruthy req.zipurl then
    die env.tmpIsDir (some "Need at least 1 file or a zip file url.")
  else if env.maxImages != 0 && req.files.length > env.maxImages then
    die env.tmpIsDir (some (overLimitMsg req.files.length env.maxImages))
  else
    match runSeries req env with
    | .ok =>
      { responses := [.uuidJson req.id], rmdirTmp := false,
        task := some req.id, crashed := false }
    | .err e => die env.tmpIsDir e.message
    | .errCrash e => { die env.tmpIsDir e.message with crashed := true }
    | .crash _ =>
      { responses := [], rmdirTmp := false, task := none, crashed := true }

/-- The full `/task/new` route: `set-uuid` middleware, then the handler. A
middleware rejection sends its error JSON directly, before any upload
directory exists for the request. -/
def taskNewRoute (header : Option String) (knownIds : List String)
    (freshUuid : String) (files : List String) (zipurl : Option String)
    (env : NewTaskEnv) : Outcome :=
  match setUuidMiddleware header knownIds freshUuid with
  | .error msg =>
    { responses := [.errorJson (some msg)], rmdirTmp := false, task := none,
      crashed := false }
  | .ok uuid => taskNew { id := uuid, files := files, zipurl := zipurl } env

/-- A task's lifecycle status (`statusCodes`). -/
inductive TaskStatus where
  | queued
  | running
  | failed
  | completed
  | canceled
  deriving DecidableEq, Repr

/-- Modelled from the spec: the Task record held by the Task Manager
(`libs/Task.js` and `libs/TaskManager.js` are not in `src/`); only the fields
the claims need are carried (id, status, output log, serialized options). -/
structure TaskRec where
  tid : String
  status : TaskStatus
  output : List String
  opts : Option String
  deriving DecidableEq, Repr

/-- Modelled from the spec: `TaskManager.find(id)` returns the Task or a
not-found signal; the manager's collection is an insertion-ordered list of
tasks with unique ids. -/
def tmFind (tasks : List TaskRec) (uuid : String) : Option TaskRec :=
  tasks.find? (fun t => t.tid == uuid)

/-- Modelled from the spec: `Task.cancel()` moves a `QUEUED` or `RUNNING`
task to `CANCELED` (killing the process when running) and is a no-op on
terminal tasks. -/
def cancelTask (t : TaskRec) : TaskRec :=
  match t.status with
  | .queued => { t with status := .canceled }
  | .running => { t with status := .canceled }
  | _ => t

/-- Modelled from the spec: `Task.restart(newOptions?)` clears the output,
replaces the options when new ones are given, and re-queues the task. -/
def restartTask (t : TaskRec) (newOpts : Option String) : TaskRec :=
  { t with
    status := .queued,
    output := [],
    opts := (match newOpts with
      | some o => some o
      | none => t.opts) }

/-- Modelled from the spec: `TaskManager.cancel(id, cb)` locates the task and
delegates to its `cancel`; when `id` is unknown the canonical `UUIDNotFound`
failure is reported through the callback and no state changes. -/
def tmCancel (tasks : List TaskRec) (uuid : String) :
    List TaskRec × Option String :=
  match tmFind tasks uuid with
  | none => (tasks, some (uuid ++ " not found"))
  | some _ =>
    (tasks.map (fun t => if t.tid == uuid then cancelTask t else t), none)

/-- Modelled from the spec: `TaskManager.remove(id, cb)` cancels if running,
deletes the task and its directories, and drops it from all manager state;
unknown ids are reported as `UUIDNotFound` with no state change. -/
def tmRemove (tasks : List TaskRec) (uuid : String) :
    List TaskRec × Option String :=
  match tmFind tasks uuid with
  | none => (tasks, some (uuid ++ " not found"))
  | some _ => (tasks.filter (fun t => !(t.tid == uuid)), none)

/-- Modelled from the spec: `TaskManager.restart(id, options, cb)` delegates
to the task's `restart`; unknown ids are reported as `UUIDNotFound` with no
state change. -/
def tmRestart (tasks : List TaskRec) (uuid : String) (newOpts : Option String) :
    List TaskRec × Option String :=
  match tmFind tasks uuid with
  | none => (tasks, some (uuid ++ " not found"))
  | some _ =>
    (tasks.map (fun t => if t.tid == uuid then restartTask t newOpts else t),
      none)

/-- The structured command result of the cancel/remove/restart routes. -/
inductive CmdResponse where
  | success
  | failure (error : Option String)
  deriving DecidableEq, Repr

/-- `successHandler` (`src/index.js:520-525`): a falsy error yields
`\x7bsuccess: true\x7d`, otherwise `\x7bsuccess: false, error: err.message\x7d`. -/
def successHandler (err : Option JsErr) : CmdResponse :=
  match err with
  | none => .success
  | some e => .failure e.message

/-- `app.post('/task/cancel')` (`src/index.js:551-553`): the manager result is
reported through `successHandler`. -/
def cancelRoute (tasks : List TaskRec) (uuid : String) :
    List TaskRec × CmdResponse :=
  match tmCancel tasks uuid with
  | (tasks2, e) => (tasks2, successHandler (e.map JsErr.errObj))

/-- `app.post('/task/remove')` (`src/index.js:579-581`). -/
def removeRoute (tasks : List TaskRec) (uuid : String) :
    List TaskRec × CmdResponse :=
  match tmRemove tasks uuid with
  | (tasks2, e) => (tasks2, successHandler (e.map JsErr.errObj))

/-- The`taskManager.restart` call shared by the restart route after (or
without) option validation (`src/index.js:624-626`). -/
def restartCmd (tasks : List TaskRec) (uuid : String) (newOpts : Option String) :
    List TaskRec × CmdResponse :=
  match tmRestart tasks uuid newOpts with
  | (tasks2, e) => (tasks2, successHandler (e.map JsErr.errObj))

/-- `getTaskFromUuid` (`src/index.js:318-324`): look the task up for the
info/output/download routes, answering a not-found error JSON otherwise. -/
def getTaskFromUuid (tasks : List TaskRec) (uuid : String) :
    Except String TaskRec :=
  match tmFind tasks uuid with
  | some t => Except.ok t
  | none => Except.error (uuid ++ " not found")

/-- Response of the restart route: either the option-validation error JSON of
the middleware at `src/index.js:614-623`, or a structured command result. -/
inductive RouteResp where
  | errorJson (msg : String)
  | cmd (r : CmdResponse)
  deriving DecidableEq, Repr

/-- `app.post('/task/restart')` (`src/index.js:614-626`): when
`req.body.options` is truthy it is passed through `odmInfo.filterOptions`
(represented by the `filterOptions` parameter, `Except.error m` being an
`Error` with message `m`); a validation error is answered directly and the
manager is never consulted; otherwise the validated (or absent) options reach
`taskManager.restart`. -/
def restartRoute (tasks : List TaskRec) (uuid : String)
    (rawOptions : Option String) (filterOptions : String → Except String String) :
    List TaskRec × RouteResp :=
  if strTruthy rawOptions then
    match filterOptions (rawOptions.getD "") with
    | .error m => (tasks, .errorJson m)
    | .ok o =>
      match restartCmd tasks uuid (some o) with
      | (tasks2, r) => (tasks2, .cmd r)
  else
    match restartCmd tasks uuid rawOptions with
    | (tasks2, r) => (tasks2, .cmd r)

/-- Response of the asset download route. -/
inductive DownloadResp where
  | fileStream (path : String)
  | errorJson (msg : String)
  deriving DecidableEq, Repr

/-- `app.get('/task/:uuid/download/:asset')` (`src/index.js:474-491`):
`resolveAsset` stands for `task.getAssetsArchivePath` (returning a path or
nothing) and `fsExistsSync` for `fs.existsSync`. -/
def downloadRoute (resolveAsset : String → Option String)
    (fsExistsSync : String → Bool) (asset : Option String) : DownloadResp :=
  let a := match asset with
    | some x => x
    | none => "all.zip"
  match resolveAsset a with
  | some filePath =>
    if fsExistsSync filePath then .fileStream filePath
    else .errorJson "Asset not ready"
  | none => .errorJson "Invalid asset"

/-- Modelled from the spec: `Task.getOutput(fromLine)` (`libs/Task.js` is not
in `src/`): "returns `output` sliced from `fromLine` (0 = all); fails
gracefully (empty sequence) if `fromLine` exceeds length". -/
def getOutput (output : List String) (fromLine : Nat) : List String :=
  output.drop fromLine

/-- Events of the graceful-shutdown sequence (`src/index.js:851-868`). -/
inductive ShutdownEv where
  | dumpTaskList
  | authCleanup
  | serverClose
  | exit (code : Nat)
  deriving DecidableEq, Repr

/-- `gracefulShutdown` (`src/index.js:851-862`), installed for `SIGTERM` and
`SIGINT`: an `async.series` of `taskManager.dumpTaskList`, `auth.cleanup`,
then `server.close()` followed by `process.exit(0)`. A failing step hands its
error to the series callback, so no later event (in particular no exit) is
produced by this path. -/
def gracefulShutdown (dumpErr authErr : Option String) : List ShutdownEv :=
  ShutdownEv.dumpTaskList ::
    (match dumpErr with
     | some _ => []
     | none =>
       ShutdownEv.authCleanup ::
         (match authErr with
          | some _ => []
          | none => [ShutdownEv.serverClose, ShutdownEv.exit 0]))

/-- Outcomes of the startup steps (`src/index.js:873-884`), one per command,
plus the `config.powercycle` flag (`src/index.js:886-891`). -/
structure StartupEnv where
  odmInitErr : Option String
  authInitErr : Option String
  s3InitErr : Option String
  taskManagerErr : Option String
  listenErr : Option String
  powercycle : Bool
  deriving DecidableEq, Repr

/-- The first error reported by the startup `async.series`, in command
order. -/
def firstStartupErr (env : StartupEnv) : Option String :=
  match env.odmInitErr with
  | some m => some m
  | none =>
    match env.authInitErr with
    | some m => some m
    | none =>
      match env.s3InitErr with
      | some m => some m
      | none =>
        match env.taskManagerErr with
        | some m => some m
        | none => env.listenErr

/-- How the startup path leaves the process: still running, or terminated
with an exit code and the logged startup error, if one was logged. -/
inductive StartupOutcome where
  | running
  | exitWith (code : Nat) (loggedError : Option String)
  deriving DecidableEq, Repr

/-- The startup sequence (`src/index.js:873-898`): the first failing command
reaches the final callback, which logs `Error during startup: <message>` and
calls `process.exit(1)`; when every command succeeds and `config.powercycle`
is set the pushed command exits with code `0`; otherwise the server keeps
running. -/
def startup (env : StartupEnv) : StartupOutcome :=
  match firstStartupErr env with
  | some m => .exitWith 1 (some ("Error during startup: " ++ m))
  | none =>
    if env.powercycle then .exitWith 0 none
    else .running

/-- An environment in which every external step of `/task/new` succeeds
(`data/<uuid>` absent, no zip entries, no limit configured). -/
def envOk : NewTaskEnv :=
  { maxImages := 0, filterOptionsErr := none, destStatErr := some "ENOENT",
    downloadErr := none, mkdirDestErr := none, mkdirGpcErr := none,
    mvErr := none, readdirErr := none, imagesDirEntries := [],
    gpcStepErr := none, taskCreateErr := none, tmpIsDir := true }

/-- The environment exhibiting the `fs.stat` slip: `data/<uuid>` already
exists, so the stat succeeds and the handler evaluates `err.code` on `null`. -/
def envStatCrash : NewTaskEnv :=
  { envOk with destStatErr := none }

/-- An all-success environment with `config.maxImages = 2`. -/
def envMax2 : NewTaskEnv :=
  { envOk with maxImages := 2 }

/-- An all-success environment in which the option validator rejects the
submitted options. -/
def envFilterBad : NewTaskEnv :=
  { envOk with filterOptionsErr := some "Invalid option value" }

/-- A startup environment in which every command succeeds and
`config.powercycle` is set. -/
def envPowercycle : StartupEnv :=
  { odmInitErr := none, authInitErr := none, s3InitErr := none,
    taskManagerErr := none, listenErr := none, powercycle := true }

/-- A startup environment whose first command, `odmInfo.initialize`, fails. -/
def envOdmFail : StartupEnv :=
  { envPowercycle with odmInitErr := some "boom", powercycle := false }

/-- The handler either creates no task or hands `taskManager.addNew` a task
under exactly `req.id`. -/
lemma taskNew_task_none_or_id (req : NewTaskReq) (env : NewTaskEnv) :
    (taskNew req env).task = none ∨ (taskNew req env).task = some req.id := by
  unfold taskNew
  split
  · exact Or.inl rfl
  · split
    · exact Or.inl rfl
    · split
      · exact Or.inr rfl
      · exact Or.inl rfl
      · exact Or.inl rfl
      · exact Or.inl rfl

/-- When no extracted archive exceeds the limit, the zip-extraction loop
behaves as if no limit were configured. -/
lemma processEntries_no_limit (maxImages : Nat) (es : List DirEntry)
    (h : ∀ e ∈ es, ∀ c, e.zip = ZipRes.extracted c → c ≤ maxImages) :
    processEntries maxImages es = processEntries 0 es := by
  induction es with
  | nil => rfl
  | cons e rest ih =>
    have he : ∀ c, e.zip = ZipRes.extracted c → c ≤ maxImages :=
      h e (by simp)
    have hrest : ∀ x ∈ rest, ∀ c, x.zip = ZipRes.extracted c → c ≤ maxImages :=
      fun x hx => h x (List.mem_cons_of_mem e hx)
    by_cases hz : zipEntryName e.name = true
    · cases hzip : e.zip with
      | openError m => simp [processEntries, hz, hzip]
      | extractError => simp [processEntries, hz, hzip]
      | extracted c =>
        have hc : ¬ c > maxImages := Nat.not_lt.mpr (he c hzip)
        simp [processEntries, hz, hzip, hc, ih hrest]
    · simp [processEntries, hz, ih hrest]

/-- Claim C2: a POST /task/new request with no uploaded files and no zipurl
in the body is answered with the validation error
"Need at least 1 file or a zip file url." through `die`, and no task is
created. -/
theorem task_new_requires_input (uuid : String) (env : NewTaskEnv) :
    taskNew { id := uuid, files := [], zipurl := none } env =
      die env.tmpIsDir (some "Need at least 1 file or a zip file url.") ∧
    (taskNew { id := uuid, files := [], zipurl := none } env).task = none ∧
    (taskNew { id := uuid, files := [], zipurl := none } env).responses =
      [Resp.errorJson (some "Need at least 1 file or a zip file url.")] :=
  ⟨rfl, rfl, rfl⟩

/-- Claim C9 (code bug, evaluated at the failing input): a request with one
uploaded file for which `data/<uuid>` already exists makes `fs.stat` succeed,
so the handler's template literal reads `err.code` on `null` and throws: the
request fails with no error JSON sent and with `tmp/<uuid>` left behind even
though it exists as a directory. -/
theorem task_new_stat_crash :
    taskNew
        { id := "11111111-1111-1111-1111-111111111111",
          files := ["IMG_0001.jpg"], zipurl := none } envStatCrash =
      { responses := [], rmdirTmp := false, task := none, crashed := true } ∧
    envStatCrash.tmpIsDir = true :=
  ⟨rfl, rfl⟩

/-- Claim C1 counterexample: with the malformed header value "not-a-uuid"
(and no task in the manager) the route rejects the request with an
`Invalid set-uuid` error and creates no task, whereas the claim requires a
task to be created under a generated id; the same request without the header
does create a task under the generated id. -/
theorem set_uuid_reject_cex :
    taskNewRoute (some "not-a-uuid") [] "aaaaaaaa-bbbb-1ccc-8ddd-eeeeeeeeeeee"
        ["IMG_0002.jpg"] none envOk =
      { responses := [Resp.errorJson (some "Invalid set-uuid: not-a-uuid")],
        rmdirTmp := false, task := none, crashed := false } ∧
    (taskNewRoute none [] "aaaaaaaa-bbbb-1ccc-8ddd-eeeeeeeeeeee"
        ["IMG_0002.jpg"] none envOk).task =
      some "aaaaaaaa-bbbb-1ccc-8ddd-eeeeeeeeeeee" :=
  ⟨rfl, rfl⟩

/-- Claim C1 (amended): when the supplied UUID matches the version-4 pattern
and no known task carries it, the request proceeds with `req.id` equal to the
supplied UUID (so any created task has exactly that id); when the supplied
non-empty value is malformed or already in use, the request is rejected with
an `Invalid set-uuid` error and no task is created — no id is generated in
its place. -/
theorem set_uuid_amended (u freshUuid : String) (known : List String)
    (files : List String) (zipurl : Option String) (env : NewTaskEnv) :
    (testSetUuidRegex u = true → known.contains u = false →
      taskNewRoute (some u) known freshUuid files zipurl env =
        taskNew { id := u, files := files, zipurl := zipurl } env ∧
      ∀ tid, (taskNew { id := u, files := files, zipurl := zipurl } env).task
          = some tid → tid = u) ∧
    ((testSetUuidRegex u = false ∨ known.contains u = true) → u ≠ "" →
      taskNewRoute (some u) known freshUuid files zipurl env =
        { responses := [Resp.errorJson (some ("Invalid set-uuid: " ++ u))],
          rmdirTmp := false, task := none, crashed := false }) := by
  constructor
  · intro ht hk
    have hne : u ≠ "" := by
      intro h
      rw [h] at ht
      exact absurd ht (by decide)
    have hb : (u == "") = false := beq_eq_false_iff_ne.mpr hne
    have hk2 : u ∉ known := by simpa using hk
    constructor
    · simp [taskNewRoute, setUuidMiddleware, strTruthy, hb, ht, hk2]
    · intro tid htid
      rcases taskNew_task_none_or_id
          { id := u, files := files, zipurl := zipurl } env with h0 | h0
      · rw [h0] at htid
        cases htid
      · rw [h0] at htid
        exact (Option.some.inj htid).symm
  · intro hor hne
    have hb : (u == "") = false := beq_eq_false_iff_ne.mpr hne
    rcases hor with hf | htrue
    · simp [taskNewRoute, setUuidMiddleware, strTruthy, hb, hf]
    · have hk2 : u ∈ known := by simpa using htrue
      simp [taskNewRoute, setUuidMiddleware, strTruthy, hb, hk2]

/-- Witness for the amended C1 theorem: a well-formed unused UUID is adopted
as the request id, and a malformed one is rejected. -/
theorem set_uuid_amended_witness :
    taskNewRoute (some "aaaaaaaa-bbbb-1ccc-8ddd-eeeeeeeeeeee") [] "f"
        ["IMG_0003.jpg"] none envOk =
      taskNew
        { id := "aaaaaaaa-bbbb-1ccc-8ddd-eeeeeeeeeeee",
          files := ["IMG_0003.jpg"], zipurl := none } envOk ∧
    taskNewRoute (some "zz") [] "f" ["IMG_0003.jpg"] none envOk =
      { responses := [Resp.errorJson (some "Invalid set-uuid: zz")],
        rmdirTmp := false, task := none, crashed := false } :=
  ⟨((set_uuid_amended "aaaaaaaa-bbbb-1ccc-8ddd-eeeeeeeeeeee" "f" []
      ["IMG_0003.jpg"] none envOk).1 (by decide) (by decide)).1,
    (set_uuid_amended "zz" "f" [] ["IMG_0003.jpg"] none envOk).2
      (Or.inl (by decide)) (by decide)⟩

/-- Claim C10: with a configured image limit, an upload count above the limit
is answered by `die` with the over-limit message; counts at or below the
limit are never rejected on this ground (the handler behaves exactly as with
no limit configured); an extracted zip whose entry count exceeds the limit
stops the series with the over-limit plain-string error, which the final
callback turns into the error response `die(err.message)`. -/
theorem task_new_image_limit (uuid : String) (files : List String)
    (zipurl : Option String) (env : NewTaskEnv) :
    (env.maxImages ≠ 0 → files.length > env.maxImages →
      taskNew { id := uuid, files := files, zipurl := zipurl } env =
        die env.tmpIsDir (some (overLimitMsg files.length env.maxImages))) ∧
    (files.length ≤ env.maxImages →
      (∀ e ∈ env.imagesDirEntries, ∀ c, e.zip = ZipRes.extracted c →
        c ≤ env.maxImages) →
      taskNew { id := uuid, files := files, zipurl := zipurl } env =
        taskNew { id := uuid, files := files, zipurl := zipurl }
          { env with maxImages := 0 }) ∧
    (∀ nm c rest, zipEntryName nm = true → env.maxImages ≠ 0 →
      c > env.maxImages →
      processEntries env.maxImages
          ({ name := nm, zip := ZipRes.extracted c } :: rest) =
        SeriesRes.err (JsErr.str (overLimitMsg c env.maxImages))) ∧
    (∀ e, runSeries { id := uuid, files := files, zipurl := zipurl } env =
        SeriesRes.err e →
      (files.length ≠ 0 ∨ strTruthy zipurl = true) →
      (files.length ≤ env.maxImages ∨ env.maxImages = 0) →
      taskNew { id := uuid, files := files, zipurl := zipurl } env =
        die env.tmpIsDir e.message) := by
  refine ⟨?_, ?_, ?_, ?_⟩
  · intro hm hgt
    have h0 : files.length ≠ 0 := by omega
    simp [taskNew, h0, hm, hgt]
  · intro hle hall
    have hpe := processEntries_no_limit env.maxImages env.imagesDirEntries hall
    have hrs : runSeries { id := uuid, files := files, zipurl := zipurl } env =
        runSeries { id := uuid, files := files, zipurl := zipurl }
          { env with maxImages := 0 } := by
      simp [runSeries, seriesAfterStat, seriesAfterDownload, seriesAfterMv, hpe]
    have h2 : ¬ files.length > env.maxImages := Nat.not_lt.mpr hle
    simp [taskNew, h2, hrs]
  · intro nm c rest hz hm hgt
    simp [processEntries, hz, hm, hgt]
  · intro e hrs hb1 hb2
    have hc1 : (files.length == 0 && !strTruthy zipurl) = false := by
      rcases hb1 with h | h
      · simp [h]
      · simp [h]
    have hc2 : (env.maxImages != 0 && decide (files.length > env.maxImages))
        = false := by
      rcases hb2 with h | h
      · simp [Nat.not_lt.mpr h]
      · simp [h]
    simp [taskNew, hc1, hc2, hrs]

/-- Witness for C10 at concrete inputs: three uploads against a limit of two
are rejected with the over-limit message; one upload against a limit of two
behaves as if no limit were set; an extracted zip with seven entries against
a limit of two stops the series; a series error becomes the `die` response. -/
theorem task_new_image_limit_witness :
    taskNew { id := "u1", files := ["a.jpg", "b.jpg", "c.jpg"], zipurl := none }
        envMax2 =
      die envMax2.tmpIsDir (some (overLimitMsg 3 2)) ∧
    taskNew { id := "u1", files := ["a.jpg"], zipurl := none } envMax2 =
      taskNew { id := "u1", files := ["a.jpg"], zipurl := none }
        { envMax2 with maxImages := 0 } ∧
    processEntries envMax2.maxImages
        [{ name := "batch.zip", zip := ZipRes.extracted 7 }] =
      SeriesRes.err (JsErr.str (overLimitMsg 7 2)) ∧
    taskNew { id := "u1", files := ["a.jpg"], zipurl := none } envFilterBad =
      die envFilterBad.tmpIsDir (some "Invalid option value") :=
  ⟨(task_new_image_limit "u1" ["a.jpg", "b.jpg", "c.jpg"] none envMax2).1
      (by decide) (by decide),
    (task_new_image_limit "u1" ["a.jpg"] none envMax2).2.1
      (by decide) (by simp [envMax2, envOk]),
    (task_new_image_limit "u1" ["a.jpg"] none envMax2).2.2.1
      "batch.zip" 7 [] (by decide) (by decide) (by decide),
    (task_new_image_limit "u1" ["a.jpg"] none envFilterBad).2.2.2
      (JsErr.errObj "Invalid option value") rfl (Or.inl (by decide))
      (Or.inr rfl)⟩

/-- Claim C3: the cancel, remove and restart routes answer through the
structured success/failure result of `successHandler`, never by aborting; on
an id unknown to the Task Manager each of them reports the canonical
not-found failure and leaves the task collection unchanged, and the
info/output/download lookups answer the same not-found error JSON. -/
theorem unknown_uuid_reported (tasks : List TaskRec) (uuid : String)
    (newOpts : Option String) (h : tmFind tasks uuid = none) :
    cancelRoute tasks uuid =
      (tasks, CmdResponse.failure (some (uuid ++ " not found"))) ∧
    removeRoute tasks uuid =
      (tasks, CmdResponse.failure (some (uuid ++ " not found"))) ∧
    restartCmd tasks uuid newOpts =
      (tasks, CmdResponse.failure (some (uuid ++ " not found"))) ∧
    getTaskFromUuid tasks uuid = Except.error (uuid ++ " not found") ∧
    (∀ e : Option JsErr, successHandler e = CmdResponse.success ∨
      ∃ m, successHandler e = CmdResponse.failure m) := by
  refine ⟨?_, ?_, ?_, ?_, ?_⟩
  · simp [cancelRoute, tmCancel, h, successHandler, JsErr.message]
  · simp [removeRoute, tmRemove, h, successHandler, JsErr.message]
  · simp [restartCmd, tmRestart, h, successHandler, JsErr.message]
  · simp [getTaskFromUuid, h]
  · intro e
    cases e with
    | none => exact Or.inl rfl
    | some x => exact Or.inr ⟨x.message, rfl⟩

/-- Witness for C3 on the empty task collection and the id "ghost". -/
theorem unknown_uuid_reported_witness :
    cancelRoute [] "ghost" =
      ([], CmdResponse.failure (some ("ghost" ++ " not found"))) ∧
    removeRoute [] "ghost" =
      ([], CmdResponse.failure (some ("ghost" ++ " not found"))) ∧
    restartCmd [] "ghost" none =
      ([], CmdResponse.failure (some ("ghost" ++ " not found"))) ∧
    getTaskFromUuid [] "ghost" = Except.error ("ghost" ++ " not found") :=
  ⟨(unknown_uuid_reported [] "ghost" none rfl).1,
    (unknown_uuid_reported [] "ghost" none rfl).2.1,
    (unknown_uuid_reported [] "ghost" none rfl).2.2.1,
    (unknown_uuid_reported [] "ghost" none rfl).2.2.2.1⟩

/-- Claim C4: when a restart request supplies (truthy) options they pass
through `odmInfo.filterOptions` first: a validation error is answered
directly as an error JSON, the Task Manager restart is never invoked and the
task collection is unchanged; on successful validation exactly the filtered
options reach `taskManager.restart`. -/
theorem restart_validates_options (tasks : List TaskRec) (uuid raw : String)
    (filterOptions : String → Except String String) (hraw : raw ≠ "") :
    (∀ m, filterOptions raw = Except.error m →
      restartRoute tasks uuid (some raw) filterOptions =
        (tasks, RouteResp.errorJson m)) ∧
    (∀ o, filterOptions raw = Except.ok o →
      restartRoute tasks uuid (some raw) filterOptions =
        ((restartCmd tasks uuid (some o)).1,
          RouteResp.cmd (restartCmd tasks uuid (some o)).2)) := by
  have hb : (raw == "") = false := beq_eq_false_iff_ne.mpr hraw
  constructor
  · intro m hm
    simp [restartRoute, strTruthy, hb, hm]
  · intro o ho
    simp [restartRoute, strTruthy, hb, ho]

/-- Witness for C4: a rejecting validator yields the error JSON with the
manager untouched; an accepting validator hands its output to the restart
command. -/
theorem restart_validates_options_witness :
    restartRoute [] "some-uuid" (some "bad-options")
        (fun _ => Except.error "Invalid odm option") =
      ([], RouteResp.errorJson "Invalid odm option") ∧
    restartRoute [] "some-uuid" (some "good-options")
        (fun s => Except.ok s) =
      ((restartCmd [] "some-uuid" (some "good-options")).1,
        RouteResp.cmd (restartCmd [] "some-uuid" (some "good-options")).2) :=
  ⟨(restart_validates_options [] "some-uuid" "bad-options"
      (fun _ => Except.error "Invalid odm option") (by decide)).1
      "Invalid odm option" rfl,
    (restart_validates_options [] "some-uuid" "good-options"
      (fun s => Except.ok s) (by decide)).2 "good-options" rfl⟩

/-- Claim C5: on the download route of an existing task, an asset name the
task cannot resolve is answered with the "Invalid asset" error JSON; a
resolvable asset whose file does not exist yet is answered with the
"Asset not ready" error JSON; and every outcome of the route is a normal
response (a file stream or an error JSON), nothing is thrown. -/
theorem download_asset_errors (resolveAsset : String → Option String)
    (fsExistsSync : String → Bool) (asset : String) :
    (resolveAsset asset = none →
      downloadRoute resolveAsset fsExistsSync (some asset) =
        DownloadResp.errorJson "Invalid asset") ∧
    (∀ p, resolveAsset asset = some p → fsExistsSync p = false →
      downloadRoute resolveAsset fsExistsSync (some asset) =
        DownloadResp.errorJson "Asset not ready") ∧
    ((∃ p, downloadRoute resolveAsset fsExistsSync (some asset) =
        DownloadResp.fileStream p) ∨
      (∃ m, downloadRoute resolveAsset fsExistsSync (some asset) =
        DownloadResp.errorJson m)) := by
  refine ⟨?_, ?_, ?_⟩
  · intro h
    simp [downloadRoute, h]
  · intro p hp hex
    simp [downloadRoute, hp, hex]
  · cases hr : downloadRoute resolveAsset fsExistsSync (some asset) with
    | fileStream p => exact Or.inl ⟨p, rfl⟩
    | errorJson m => exact Or.inr ⟨m, rfl⟩

/-- Witness for C5 with concrete resolution functions. -/
theorem download_asset_errors_witness :
    downloadRoute (fun _ => none) (fun _ => false) (some "foo.zip") =
      DownloadResp.errorJson "Invalid asset" ∧
    downloadRoute (fun _ => some "/data/u/all.zip") (fun _ => false)
        (some "all.zip") =
      DownloadResp.errorJson "Asset not ready" :=
  ⟨(download_asset_errors (fun _ => none) (fun _ => false) "foo.zip").1 rfl,
    (download_asset_errors (fun _ => some "/data/u/all.zip") (fun _ => false)
      "all.zip").2.1 "/data/u/all.zip" rfl rfl⟩

/-- Claim C6: `getOutput(fromLine)` returns the output sliced from index
`fromLine`: `0` returns all lines, line `fromLine + i` of the original log is
element `i` of the slice, and a `fromLine` beyond the current length yields
the empty sequence rather than an error. -/
theorem get_output_slices (output : List String) (fromLine : Nat) :
    getOutput output 0 = output ∧
    (output.length < fromLine → getOutput output fromLine = []) ∧
    (getOutput output fromLine).length = output.length - fromLine ∧
    (∀ i : Nat, (getOutput output fromLine)[i]? = output[fromLine + i]?) := by
  refine ⟨rfl, ?_, ?_, ?_⟩
  · intro h
    exact List.drop_eq_nil_of_le (Nat.le_of_lt h)
  · exact List.length_drop fromLine output
  · intro i
    exact List.getElem?_drop output fromLine i

/-- Witness for C6 on a three-line log. -/
theorem get_output_slices_witness :
    getOutput ["l0", "l1", "l2"] 0 = ["l0", "l1", "l2"] ∧
    getOutput ["l0", "l1", "l2"] 5 = [] :=
  ⟨(get_output_slices ["l0", "l1", "l2"] 0).1,
    (get_output_slices ["l0", "l1", "l2"] 5).2.1 (by decide)⟩

/-- Claim C7: the graceful-shutdown sequence installed for SIGTERM/SIGINT
always begins with `taskManager.dumpTaskList`, and the only event sequence
containing a process exit is the one in which the dump (and the auth
cleanup) succeeded, with the dump first, then the server close, then
`process.exit(0)`. -/
theorem shutdown_dumps_before_exit (dumpErr authErr : Option String) :
    (gracefulShutdown dumpErr authErr).head? = some ShutdownEv.dumpTaskList ∧
    (∀ c, ShutdownEv.exit c ∈ gracefulShutdown dumpErr authErr →
      dumpErr = none ∧ authErr = none ∧ c = 0 ∧
      gracefulShutdown dumpErr authErr =
        [ShutdownEv.dumpTaskList, ShutdownEv.authCleanup,
          ShutdownEv.serverClose, ShutdownEv.exit 0]) := by
  refine ⟨rfl, ?_⟩
  intro c hc
  cases dumpErr with
  | some m => simp [gracefulShutdown] at hc
  | none =>
    cases authErr with
    | some m => simp [gracefulShutdown] at hc
    | none =>
      simp [gracefulShutdown] at hc
      exact ⟨rfl, rfl, hc, rfl⟩

/-- Witness for C7: with both steps succeeding, the exit event occurs and the
dump is the first event of the sequence. -/
theorem shutdown_dumps_before_exit_witness :
    gracefulShutdown none none =
      [ShutdownEv.dumpTaskList, ShutdownEv.authCleanup,
        ShutdownEv.serverClose, ShutdownEv.exit 0] :=
  ((shutdown_dumps_before_exit none none).2 0 (by decide)).2.2.2

/-- Claim C8 counterexample: with every startup command succeeding and
`config.powercycle` set, the startup path terminates the process (exit code
0) although no initialization step reported an error — so startup errors are
not the only conditions on this path that terminate the process. -/
theorem startup_powercycle_cex :
    startup envPowercycle = StartupOutcome.exitWith 0 none ∧
    firstStartupErr envPowercycle = none :=
  ⟨rfl, rfl⟩

/-- Claim C8 (amended): any failing initialization step makes the startup
path log "Error during startup: <reason>" and exit with code 1; the process
keeps running exactly when every step succeeded and powercycle is unset; and
the only termination besides the logged error exit is the deliberate
powercycle shutdown with exit code 0 after a fully successful startup. -/
theorem startup_exit_amended (env : StartupEnv) :
    (∀ m, firstStartupErr env = some m →
      startup env =
        StartupOutcome.exitWith 1 (some ("Error during startup: " ++ m))) ∧
    (startup env = StartupOutcome.running ↔
      (firstStartupErr env = none ∧ env.powercycle = false)) ∧
    (∀ c lg, startup env = StartupOutcome.exitWith c lg → c ≠ 1 →
      c = 0 ∧ lg = none ∧ firstStartupErr env = none ∧
        env.powercycle = true) := by
  refine ⟨?_, ?_, ?_⟩
  · intro m hm
    simp [startup, hm]
  · cases hf : firstStartupErr env with
    | some m => simp [startup, hf]
    | none => cases hp : env.powercycle <;> simp [startup, hf, hp]
  · intro c lg hcl hc1
    cases hf : firstStartupErr env with
    | some m =>
      rw [startup, hf] at hcl
      exact absurd (StartupOutcome.exitWith.inj hcl).1.symm hc1
    | none =>
      cases hp : env.powercycle with
      | true =>
        rw [startup, hf, if_pos] at hcl
        · have h2 := StartupOutcome.exitWith.inj hcl
          exact ⟨h2.1.symm, h2.2.symm, rfl, rfl⟩
        · exact hp
      | false =>
        rw [startup, hf, if_neg] at hcl
        · cases hcl
        · simp [hp]

/-- Witness for the amended C8 theorem: a failing first command produces the
logged exit with code 1. -/
theorem startup_exit_amended_witness :
    startup envOdmFail =
      StartupOutcome.exitWith 1 (some ("Error during startup: " ++ "boom")) :=
  (startup_exit_amended envOdmFail).1 "boom" rfl

end NodeODM
